import Mathlib

/-!
Shallow embedding of the fvg-lite analysis pipeline and signal lifecycle.

Python floats are modelled as exact rationals (ℚ); `round(x, d)` is modelled
by round-half-to-even on the exact value (`pyRound`), matching Python's
rounding mode on reals.  Candle dictionaries become the `Candle` structure,
free-form status/side strings become inductive types, and the stateful
signal manager becomes explicit state passing over `GenState`.
-/

set_option maxRecDepth 100000

namespace FvgLite

/-- Round-half-to-even to the nearest integer, the rounding mode of
Python's builtin `round`. -/
def roundHalfEven (x : ℚ) : ℤ :=
  let n := ⌊x⌋
  let f := x - n
  if f < 1/2 then n
  else if 1/2 < f then n + 1
  else if n % 2 = 0 then n else n + 1

/-- Model of Python `round(x, d)` on exact rationals. -/
def pyRound (x : ℚ) (d : ℕ) : ℚ :=
  (roundHalfEven (x * 10 ^ d) : ℚ) / 10 ^ d

/-- Model of Python `int(x)`: truncation toward zero. -/
def pyTrunc (x : ℚ) : ℤ :=
  if 0 ≤ x then ⌊x⌋ else -⌊-x⌋

/-- Model of Python `l[a:b]` for `0 ≤ a ≤ b`. -/
def pySlice {α : Type} (l : List α) (a b : ℕ) : List α :=
  (l.take b).drop a

/-- `_mean` from fvg_detector.py / `np.mean`: mean of a list, 0 on empty. -/
def listMean (l : List ℚ) : ℚ :=
  if l.length = 0 then 0 else l.sum / (l.length : ℚ)

/-- One OHLC candle (`{timestamp, open, high, low, close, volume}`). -/
structure Candle where
  timestamp : ℤ
  open_ : ℚ
  high : ℚ
  low : ℚ
  close : ℚ
  volume : ℚ
deriving DecidableEq

def dummyCandle : Candle := ⟨0, 0, 0, 0, 0, 0⟩

/-- Directional bias values. -/
inductive BiasKind where
  | bullish
  | bearish
  | neutral
deriving DecidableEq

/-- Result dictionary of `MarketBiasAnalyzer.determine_bias`. -/
structure BiasResult where
  bias : BiasKind
  confidence : ℚ
  ema_value : ℚ
  current_price : ℚ
  price_vs_ema : ℚ
deriving DecidableEq

/-- `default_ema_periods` lookup with default 200. -/
def emaPeriod (timeframe : String) : ℕ :=
  if timeframe = "H1" then 200
  else if timeframe = "H4" then 50
  else if timeframe = "D1" then 20
  else 200

/-- `MarketBiasAnalyzer.calculate_ema`: recursive EMA seeded with the first
price; degrades to the last price when fewer prices than the period. -/
def calculateEma (prices : List ℚ) (period : ℕ) : ℚ :=
  if prices.length < period then (prices.getLast?).getD 0
  else
    match prices with
    | [] => 0
    | p :: rest =>
        let multiplier : ℚ := 2 / (period + 1)
        rest.foldl (fun ema price => price * multiplier + ema * (1 - multiplier)) p

/-- `MarketBiasAnalyzer.determine_bias`. -/
def determineBias (candles : List Candle) (timeframe : String) : BiasResult :=
  if candles.length = 0 then
    { bias := .neutral, confidence := 0, ema_value := 0, current_price := 0, price_vs_ema := 0 }
  else
    let closes := candles.map Candle.close
    let currentPrice := (closes.getLast?).getD 0
    let period := emaPeriod timeframe
    let emaValue := calculateEma closes period
    let priceVsEma := currentPrice - emaValue
    let biasThreshold : ℚ := 0.0005
    if |priceVsEma| < biasThreshold then
      { bias := .neutral, confidence := pyRound 0.3 2, ema_value := pyRound emaValue 5,
        current_price := pyRound currentPrice 5, price_vs_ema := pyRound priceVsEma 5 }
    else if 0 < priceVsEma then
      { bias := .bullish, confidence := pyRound (min (|priceVsEma| / 0.002) 1) 2,
        ema_value := pyRound emaValue 5, current_price := pyRound currentPrice 5,
        price_vs_ema := pyRound priceVsEma 5 }
    else
      { bias := .bearish, confidence := pyRound (min (|priceVsEma| / 0.002) 1) 2,
        ema_value := pyRound emaValue 5, current_price := pyRound currentPrice 5,
        price_vs_ema := pyRound priceVsEma 5 }

/-- Vote counters of `get_multi_timeframe_bias` (`overall_bias` dict). -/
structure VoteCounts where
  bullish : ℕ
  bearish : ℕ
  neutral : ℕ
deriving DecidableEq

def bumpCount (c : VoteCounts) : BiasKind → VoteCounts
  | .bullish => { c with bullish := c.bullish + 1 }
  | .bearish => { c with bearish := c.bearish + 1 }
  | .neutral => { c with neutral := c.neutral + 1 }

/-- The loop body of `get_multi_timeframe_bias`: per-timeframe results,
vote counts and total confidence. -/
def mtfFold : List (String × List Candle) → List (String × BiasResult) × VoteCounts × ℚ
  | [] => ([], ⟨0, 0, 0⟩, 0)
  | (tf, cs) :: rest =>
      let biasData := determineBias cs tf
      let (results, counts, total) := mtfFold rest
      ((tf, biasData) :: results, bumpCount counts biasData.bias, biasData.confidence + total)

/-- Result of `get_multi_timeframe_bias`. -/
structure MtfBias where
  overall_bias : BiasKind
  overall_confidence : ℚ
  timeframe_analysis : List (String × BiasResult)
  bias_distribution : VoteCounts
deriving DecidableEq

/-- `MarketBiasAnalyzer.get_multi_timeframe_bias` over an ordered mapping
timeframe → candles. -/
def getMultiTimeframeBias (candlesByTf : List (String × List Candle)) : MtfBias :=
  let (results, counts, total) := mtfFold candlesByTf
  let maxCount := max counts.bullish (max counts.bearish counts.neutral)
  let overall : BiasKind :=
    if maxCount = counts.bullish then .bullish
    else if maxCount = counts.bearish then .bearish
    else .neutral
  let avgConfidence : ℚ :=
    if candlesByTf.length = 0 then 0 else total / (candlesByTf.length : ℚ)
  { overall_bias := overall, overall_confidence := pyRound avgConfidence 2,
    timeframe_analysis := results, bias_distribution := counts }

/-! ## FVG detector (`fvg_detector.py`) -/

/-- FVG direction. -/
inductive FvgKind where
  | bullish
  | bearish
deriving DecidableEq

/-- FVG fill state. -/
inductive FvgState where
  | active
  | filled
deriving DecidableEq

/-- The intermediate dict built by `_check_bullish_fvg` / `_check_bearish_fvg`. -/
structure FvgData where
  type : FvgKind
  gap_top : ℚ
  gap_bottom : ℚ
  gap_size : ℚ
deriving DecidableEq

/-- `self.min_gap_size`: 2 pips. -/
def minGapSize : ℚ := 0.0002

/-- `FVGDetector._check_bullish_fvg`. -/
def checkBullishFvg (high1 low1 high2 low2 high3 low3 : ℚ) : Option FvgData :=
  if high3 < low1 then
    let gapSize := low1 - high3
    if minGapSize ≤ gapSize then
      some { type := .bullish, gap_top := high3, gap_bottom := low1, gap_size := gapSize }
    else none
  else none

/-- `FVGDetector._check_bearish_fvg`. -/
def checkBearishFvg (high1 low1 high2 low2 high3 low3 : ℚ) : Option FvgData :=
  if high1 < low3 then
    let gapSize := low3 - high1
    if minGapSize ≤ gapSize then
      some { type := .bearish, gap_top := low3, gap_bottom := high1, gap_size := gapSize }
    else none
  else none

/-- Result dict of `_check_fvg_status`. -/
structure FvgStatus where
  status : FvgState
  fill_price : Option ℚ
  fill_time : Option ℤ
  fill_index : Option ℕ
deriving DecidableEq

/-- Fill condition checked per candle inside `_check_fvg_status`: a bullish
gap fills when a later high reaches `gap_bottom`, a bearish gap when a later
low reaches `gap_top`. -/
def fillCondition (ty : FvgKind) (gapTop gapBottom : ℚ) (c : Candle) : Prop :=
  match ty with
  | .bullish => gapBottom ≤ c.high
  | .bearish => c.low ≤ gapTop

instance (ty : FvgKind) (gapTop gapBottom : ℚ) (c : Candle) :
    Decidable (fillCondition ty gapTop gapBottom c) := by
  cases ty <;> simp only [fillCondition] <;> infer_instance

/-- The scan loop of `_check_fvg_status`: first candle of `l` (whose first
element carries index `s`) meeting the fill condition. -/
def findFill (ty : FvgKind) (gapTop gapBottom : ℚ) : List Candle → ℕ → Option (ℕ × Candle)
  | [], _ => none
  | c :: rest, s =>
      if fillCondition ty gapTop gapBottom c then some (s, c)
      else findFill ty gapTop gapBottom rest (s + 1)

/-- `FVGDetector._check_fvg_status`: scan candles after the formation window. -/
def checkFvgStatus (candles : List Candle) (formationIndex : ℕ) (d : FvgData) : FvgStatus :=
  match findFill d.type d.gap_top d.gap_bottom (candles.drop (formationIndex + 1)) (formationIndex + 1) with
  | some (i, c) =>
      { status := .filled,
        fill_price := some (match d.type with | .bullish => d.gap_bottom | .bearish => d.gap_top),
        fill_time := some c.timestamp,
        fill_index := some i }
  | none =>
      { status := .active, fill_price := none, fill_time := none, fill_index := none }

/-- Target-level dict of `_calculate_fvg_targets`. -/
structure TargetLevels where
  entry : ℚ
  stop_loss : ℚ
  take_profit_1 : ℚ
  take_profit_2 : ℚ
  risk_reward_1 : ℚ
  risk_reward_2 : ℚ
deriving DecidableEq

/-- `FVGDetector._calculate_fvg_targets`. -/
def calculateFvgTargets (d : FvgData) (ty : FvgKind) : TargetLevels :=
  match ty with
  | .bullish =>
      let entry := d.gap_bottom
      let stopLoss := d.gap_bottom - d.gap_size * 0.5
      let takeProfit1 := d.gap_top
      let takeProfit2 := d.gap_top + d.gap_size * 1.0
      { entry := pyRound entry 5, stop_loss := pyRound stopLoss 5,
        take_profit_1 := pyRound takeProfit1 5, take_profit_2 := pyRound takeProfit2 5,
        risk_reward_1 := pyRound ((takeProfit1 - entry) / (entry - stopLoss)) 2,
        risk_reward_2 := pyRound ((takeProfit2 - entry) / (entry - stopLoss)) 2 }
  | .bearish =>
      let entry := d.gap_top
      let stopLoss := d.gap_top + d.gap_size * 0.5
      let takeProfit1 := d.gap_bottom
      let takeProfit2 := d.gap_bottom - d.gap_size * 1.0
      { entry := pyRound entry 5, stop_loss := pyRound stopLoss 5,
        take_profit_1 := pyRound takeProfit1 5, take_profit_2 := pyRound takeProfit2 5,
        risk_reward_1 := pyRound ((entry - takeProfit1) / (stopLoss - entry)) 2,
        risk_reward_2 := pyRound ((entry - takeProfit2) / (stopLoss - entry)) 2 }

/-- The true-range sequence of `_calculate_recent_volatility`
(`tr = max(high-low, |high-prev_close|, |low-prev_close|)` for i ≥ 1). -/
def trueRanges : List Candle → List ℚ
  | [] => []
  | [_] => []
  | a :: b :: rest =>
      max (b.high - b.low) (max |b.high - a.close| |b.low - a.close|) :: trueRanges (b :: rest)

/-- `FVGDetector._calculate_recent_volatility`. -/
def calculateRecentVolatility (candles : List Candle) (index : ℕ) : ℚ :=
  let startIdx := index - 10
  let recentCandles := pySlice candles startIdx index
  if recentCandles.length < 5 then 0.001
  else
    let atrValues := trueRanges recentCandles
    if atrValues.length = 0 then 0.001 else listMean atrValues

/-- `FVGDetector._calculate_fvg_confidence`. -/
def calculateFvgConfidence (d : FvgData) (candles : List Candle) (formationIndex : ℕ) : ℚ :=
  let sizeConfidence := min (d.gap_size / 0.001) 1
  let recentVolatility := calculateRecentVolatility candles formationIndex
  let volatilityFactor := min (recentVolatility / 0.002) 1
  let confidence := sizeConfidence * 0.6 + volatilityFactor * 0.4
  pyRound (min confidence 1) 2

/-- A full FVG record as assembled by `_create_fvg_record`. -/
structure FVGRecord where
  id : String
  type : FvgKind
  formation_time : ℤ
  formation_index : ℕ
  gap_top : ℚ
  gap_bottom : ℚ
  gap_size : ℚ
  status : FvgState
  fill_price : Option ℚ
  fill_time : Option ℤ
  fill_index : Option ℕ
  target_levels : TargetLevels
  confidence : ℚ
deriving DecidableEq

def fvgKindName : FvgKind → String
  | .bullish => "bullish"
  | .bearish => "bearish"

/-- `FVGDetector._create_fvg_record` (timestamps kept as raw integers). -/
def createFvgRecord (candles : List Candle) (index : ℕ) (d : FvgData) (ty : FvgKind)
    (candle2 : Candle) : FVGRecord :=
  let st := checkFvgStatus candles index d
  let targetLevels := calculateFvgTargets d ty
  { id := "fvg_" ++ toString index ++ "_" ++ fvgKindName ty,
    type := ty,
    formation_time := candle2.timestamp,
    formation_index := index - 1,
    gap_top := d.gap_top,
    gap_bottom := d.gap_bottom,
    gap_size := pyRound d.gap_size 5,
    status := st.status,
    fill_price := st.fill_price,
    fill_time := st.fill_time,
    fill_index := st.fill_index,
    target_levels := targetLevels,
    confidence := calculateFvgConfidence d candles index }

/-- `FVGDetector._analyze_single_fvg`. -/
def analyzeSingleFvg (candles : List Candle) (index : ℕ) : Option FVGRecord :=
  if index < 2 ∨ candles.length ≤ index + 1 then none
  else
    let candle1 := candles.getD (index - 2) dummyCandle
    let candle2 := candles.getD (index - 1) dummyCandle
    let candle3 := candles.getD index dummyCandle
    match checkBullishFvg candle1.high candle1.low candle2.high candle2.low candle3.high candle3.low with
    | some d => some (createFvgRecord candles index d .bullish candle2)
    | none =>
        match checkBearishFvg candle1.high candle1.low candle2.high candle2.low candle3.high candle3.low with
        | some d => some (createFvgRecord candles index d .bearish candle2)
        | none => none

/-- Result of `detect_fvgs`. -/
structure FvgAnalysis where
  fvgs : List FVGRecord
  active_fvgs : List FVGRecord
  filled_fvgs : List FVGRecord
  analysis_complete : Bool
deriving DecidableEq

/-- `FVGDetector.detect_fvgs`: the loop `for i in range(2, len(candles) - 1)`
is rendered as a filterMap over all indices (out-of-range indices are
rejected by the guard inside `analyzeSingleFvg`). -/
def detectFvgs (candles : List Candle) : FvgAnalysis :=
  if candles.length < 5 then
    { fvgs := [], active_fvgs := [], filled_fvgs := [], analysis_complete := false }
  else
    let fvgs := (List.range candles.length).filterMap (analyzeSingleFvg candles)
    { fvgs := fvgs,
      active_fvgs := fvgs.filter (fun f => f.status = .active),
      filled_fvgs := fvgs.filter (fun f => f.status = .filled),
      analysis_complete := true }

/-! ## Liquidity analyzer (`liquidity_analyzer.py`) -/

/-- A swing point as recorded by `_find_swing_highs` / `_find_swing_lows`. -/
structure SwingPoint where
  price : ℚ
  index : ℕ
  strength : ℚ
deriving DecidableEq

/-- `LiquidityAnalyzer._calculate_level_strength`. -/
def calculateLevelStrength (levelPrice : ℚ) (surroundingPrices : List ℚ) : ℚ :=
  let avgSurrounding := listMean surroundingPrices
  let distance := |levelPrice - avgSurrounding|
  let maxDistance : ℚ := 0.01
  pyRound (min (distance / maxDistance) 1) 2

/-- Loop body of `_find_swing_highs` at index `i` (the loop runs for
`2 ≤ i < len - 2`; both bounds are part of the guard here). -/
def swingHighAt (highs : List ℚ) (i : ℕ) : Option SwingPoint :=
  if 2 ≤ i ∧ i + 2 < highs.length ∧
     highs.getD (i - 1) 0 < highs.getD i 0 ∧
     highs.getD (i - 2) 0 < highs.getD i 0 ∧
     highs.getD (i + 1) 0 < highs.getD i 0 ∧
     highs.getD (i + 2) 0 < highs.getD i 0 then
    some { price := highs.getD i 0, index := i,
           strength := calculateLevelStrength (highs.getD i 0)
             [highs.getD (i - 2) 0, highs.getD (i - 1) 0, highs.getD (i + 1) 0, highs.getD (i + 2) 0] }
  else none

/-- Loop body of `_find_swing_lows` at index `i`. -/
def swingLowAt (lows : List ℚ) (i : ℕ) : Option SwingPoint :=
  if 2 ≤ i ∧ i + 2 < lows.length ∧
     lows.getD i 0 < lows.getD (i - 1) 0 ∧
     lows.getD i 0 < lows.getD (i - 2) 0 ∧
     lows.getD i 0 < lows.getD (i + 1) 0 ∧
     lows.getD i 0 < lows.getD (i + 2) 0 then
    some { price := lows.getD i 0, index := i,
           strength := calculateLevelStrength (lows.getD i 0)
             [lows.getD (i - 2) 0, lows.getD (i - 1) 0, lows.getD (i + 1) 0, lows.getD (i + 2) 0] }
  else none

/-- `LiquidityAnalyzer._find_swing_highs` (only the `highs` argument is
read by the source). -/
def findSwingHighs (highs : List ℚ) : List SwingPoint :=
  (List.range highs.length).filterMap (swingHighAt highs)

/-- `LiquidityAnalyzer._find_swing_lows`. -/
def findSwingLows (lows : List ℚ) : List SwingPoint :=
  (List.range lows.length).filterMap (swingLowAt lows)

/-- Liquidity level significance. -/
inductive Significance where
  | high
  | medium
deriving DecidableEq

/-- A buy-side / sell-side liquidity level. -/
structure LiqLevel where
  price : ℚ
  strength : ℚ
  distance : ℚ
  significance : Significance
deriving DecidableEq

/-- Result dict of `find_liquidity_levels` (the part consumed downstream). -/
structure LiquidityLevels where
  buy_side_liquidity : List LiqLevel
  sell_side_liquidity : List LiqLevel
  strongest_buy : Option LiqLevel
  strongest_sell : Option LiqLevel
  analysis_complete : Bool
deriving DecidableEq

/-! ## Silver Bullet setup evaluation (`fvg_detector.py`, engine part) -/

/-- `FVGDetector._check_bias_alignment` (the `aligned` flag). -/
def checkBiasAlignment (fvg : FVGRecord) (biasData : BiasResult) : Bool :=
  match fvg.type, biasData.bias with
  | .bullish, .bullish => true
  | .bearish, .bearish => true
  | _, _ => false

/-- The nearest-level loop of `_check_liquidity_proximity`
(strict-minimum, first of equals kept; `none` models the initial
`nearest_distance = inf, nearest_level = None` state). -/
def nearestLevel (levels : List LiqLevel) (fvgPrice : ℚ) : Option (LiqLevel × ℚ) :=
  levels.foldl
    (fun acc level =>
      let distance := |fvgPrice - level.price|
      match acc with
      | none => some (level, distance)
      | some (_, nd) => if distance < nd then some (level, distance) else acc)
    none

/-- `FVGDetector._check_liquidity_proximity`: `some (level, distance)` iff the
check reports `valid`. -/
def checkLiquidityProximity (fvg : FVGRecord) (liquidityLevels : LiquidityLevels) :
    Option (LiqLevel × ℚ) :=
  if liquidityLevels.analysis_complete = false then none
  else
    let fvgPrice := match fvg.type with | .bullish => fvg.gap_bottom | .bearish => fvg.gap_top
    let relevantLiquidity :=
      match fvg.type with
      | .bullish => liquidityLevels.buy_side_liquidity
      | .bearish => liquidityLevels.sell_side_liquidity
    match nearestLevel relevantLiquidity fvgPrice with
    | some (level, distance) => if distance < 0.002 then some (level, distance) else none
    | none => none

/-- `FVGDetector._calculate_setup_quality`. -/
def calculateSetupQuality (fvg : FVGRecord) (liquidityLevels : LiquidityLevels)
    (biasData : BiasResult) : ℚ :=
  let gapSizeFactor := min (fvg.gap_size / 0.001) 1
  let liquidityStrength : ℚ :=
    if liquidityLevels.analysis_complete then
      match fvg.type, liquidityLevels.strongest_buy, liquidityLevels.strongest_sell with
      | .bullish, some l, _ => l.strength
      | .bearish, _, some l => l.strength
      | _, _, _ => 0.5
    else 0.5
  pyRound (fvg.confidence * 0.4 + gapSizeFactor * 0.3 + biasData.confidence * 0.2 +
    liquidityStrength * 0.1) 2

/-- A Silver Bullet setup as assembled by `_evaluate_silver_bullet_setup`. -/
structure Setup where
  fvg : FVGRecord
  liquidity_proximity : LiqLevel × ℚ
  quality_score : ℚ
  confidence : ℚ
deriving DecidableEq

/-- `FVGDetector._evaluate_silver_bullet_setup`. -/
def evaluateSilverBulletSetup (fvg : FVGRecord) (liquidityLevels : LiquidityLevels)
    (biasData : BiasResult) : Option Setup :=
  if checkBiasAlignment fvg biasData = false then none
  else
    match checkLiquidityProximity fvg liquidityLevels with
    | none => none
    | some prox =>
        let qualityScore := calculateSetupQuality fvg liquidityLevels biasData
        some { fvg := fvg, liquidity_proximity := prox,
               quality_score := qualityScore, confidence := qualityScore }

/-- `FVGDetector.get_silver_bullet_setups`. -/
def getSilverBulletSetups (candles : List Candle) (liquidityLevels : LiquidityLevels)
    (biasData : BiasResult) : List Setup :=
  let fvgData := detectFvgs candles
  if fvgData.analysis_complete = false then []
  else fvgData.active_fvgs.filterMap (fun fvg => evaluateSilverBulletSetup fvg liquidityLevels biasData)

/-! ## Silver Bullet engine (`silver_bullet_engine.py`) -/

/-- `self.min_setup_quality`. -/
def minSetupQuality : ℚ := 0.7

/-- `self.min_risk_reward`. -/
def minRiskReward : ℚ := 2.0

/-- Position-size dict of `_calculate_position_size` (the `current_price`
argument is unused in the source as well). -/
structure PositionSize where
  units : ℤ
  risk_amount : ℚ
  risk_percentage : ℚ
deriving DecidableEq

/-- `SilverBulletEngine._calculate_position_size`. -/
def calculatePositionSize (riskAmount : ℚ) (currentPrice : ℚ) : PositionSize :=
  let accountBalance : ℚ := 10000
  let riskPercentage : ℚ := 0.02
  let dollarRisk := accountBalance * riskPercentage
  let pipValue : ℚ := 0.0001
  let positionSize := dollarRisk / (riskAmount / pipValue)
  { units := pyTrunc positionSize, risk_amount := dollarRisk,
    risk_percentage := riskPercentage * 100 }

/-- A trade suggestion as assembled by `_generate_trade_suggestions`. -/
structure Suggestion where
  setup_id : String
  type : FvgKind
  entry_price : ℚ
  stop_loss : ℚ
  take_profit_1 : ℚ
  take_profit_2 : ℚ
  risk_reward_1 : ℚ
  risk_reward_2 : ℚ
  position_size : PositionSize
  confidence : ℚ
  setup_quality : ℚ
deriving DecidableEq

/-- `SilverBulletEngine._generate_trade_suggestions`. -/
def generateTradeSuggestions (setups : List Setup) (currentPrice : ℚ) : List Suggestion :=
  setups.filterMap (fun setup =>
    let fvg := setup.fvg
    let targets := fvg.target_levels
    let riskAmount := |targets.entry - targets.stop_loss|
    let positionSize := calculatePositionSize riskAmount currentPrice
    if minRiskReward ≤ targets.risk_reward_1 ∨ minRiskReward ≤ targets.risk_reward_2 then
      some { setup_id := fvg.id, type := fvg.type,
             entry_price := targets.entry, stop_loss := targets.stop_loss,
             take_profit_1 := targets.take_profit_1, take_profit_2 := targets.take_profit_2,
             risk_reward_1 := targets.risk_reward_1, risk_reward_2 := targets.risk_reward_2,
             position_size := positionSize,
             confidence := setup.confidence, setup_quality := setup.quality_score }
    else none)

/-- The high-quality filter of `analyze_market_setup`
(`quality_score >= min_setup_quality`). -/
def highQualitySetups (setups : List Setup) : List Setup :=
  setups.filter (fun setup => minSetupQuality ≤ setup.quality_score)

/-- The deterministic tail of `analyze_market_setup`, fed with explicit
liquidity and bias contexts: setup generation, quality filter and trade
suggestions. -/
def engineSuggestions (candles : List Candle) (liquidityLevels : LiquidityLevels)
    (biasData : BiasResult) (currentPrice : ℚ) : List Suggestion :=
  generateTradeSuggestions
    (highQualitySetups (getSilverBulletSetups candles liquidityLevels biasData))
    currentPrice

/-! ## Signal lifecycle (`live_signal_generator.py`, `signal_scheduler.py`) -/

inductive SignalState where
  | active
  | closed
deriving DecidableEq

inductive ExitReason where
  | target_hit
  | stop_loss_hit
  | time_expired
deriving DecidableEq

/-- A tracked signal (time stamps as raw integers). -/
structure Signal where
  signal_id : String
  symbol : String
  timeframe : String
  entry : ℚ
  stop_loss : ℚ
  take_profit : ℚ
  confidence : ℚ
  expires_at : ℤ
  status : SignalState
  exit_reason : Option ExitReason
  exit_price : Option ℚ
  pips_gained : Option ℚ
deriving DecidableEq

/-- The exit dict returned by `check_exit_conditions`. -/
structure ExitRecord where
  reason : ExitReason
  exit_price : ℚ
  pips_gained : ℚ
  signal_id : String
deriving DecidableEq

/-- `LiveSignalGenerator.check_exit_conditions`; `datetime.utcnow()` is the
explicit `now` argument. -/
def checkExitConditions (signal : Signal) (currentPrice : ℚ) (now : ℤ) : Option ExitRecord :=
  if signal.status ≠ .active then none
  else
    let entry := signal.entry
    let tp := signal.take_profit
    let sl := signal.stop_loss
    let isBullish := entry < tp
    if isBullish ∧ tp ≤ currentPrice then
      some { reason := .target_hit, exit_price := tp,
             pips_gained := pyRound (|tp - entry| * 10000) 1, signal_id := signal.signal_id }
    else if ¬isBullish ∧ currentPrice ≤ tp then
      some { reason := .target_hit, exit_price := tp,
             pips_gained := pyRound (|tp - entry| * 10000) 1, signal_id := signal.signal_id }
    else if isBullish ∧ currentPrice ≤ sl then
      some { reason := .stop_loss_hit, exit_price := sl,
             pips_gained := -(pyRound (|sl - entry| * 10000) 1), signal_id := signal.signal_id }
    else if ¬isBullish ∧ sl ≤ currentPrice then
      some { reason := .stop_loss_hit, exit_price := sl,
             pips_gained := -(pyRound (|sl - entry| * 10000) 1), signal_id := signal.signal_id }
    else if signal.expires_at < now then
      let currentPips := |currentPrice - entry| * 10000
      let pipsGained :=
        if (isBullish ∧ entry < currentPrice) ∨ (¬isBullish ∧ currentPrice < entry) then
          currentPips
        else -currentPips
      some { reason := .time_expired, exit_price := currentPrice,
             pips_gained := pyRound pipsGained 1, signal_id := signal.signal_id }
    else none

/-- `self.session_stats`. -/
structure SessionStats where
  total_pips : ℚ
  winning_trades : ℕ
  losing_trades : ℕ
  total_trades : ℕ
  win_rate : ℚ
deriving DecidableEq

/-- `LiveSignalGenerator.update_session_stats`. -/
def updateSessionStats (stats : SessionStats) (exitSignal : ExitRecord) : SessionStats :=
  let pips := exitSignal.pips_gained
  let stats1 := { stats with total_pips := stats.total_pips + pips,
                             total_trades := stats.total_trades + 1 }
  let stats2 :=
    if 0 < pips then { stats1 with winning_trades := stats1.winning_trades + 1 }
    else { stats1 with losing_trades := stats1.losing_trades + 1 }
  if 0 < stats2.total_trades then
    let rate := pyRound ((stats2.winning_trades : ℚ) / (stats2.total_trades : ℚ) * 100) 1
    { stats2 with win_rate := rate }
  else stats2

/-- The mutable state of a `LiveSignalGenerator`: active signals keyed by
symbol (an ordered association list, like the Python dict), the append-only
closed log and the session statistics. -/
structure GenState where
  activeSignals : List (String × List Signal)
  closedSignals : List Signal
  session_stats : SessionStats
deriving DecidableEq

/-- `LiveSignalGenerator.get_active_signals(symbol)`
(`self.active_signals.get(symbol, [])`). -/
def getActiveSignals (st : GenState) (symbol : String) : List Signal :=
  (st.activeSignals.lookup symbol).getD []

/-- `LiveSignalGenerator.get_active_signals()` without a symbol filter. -/
def allActiveSignals (st : GenState) : List Signal :=
  (st.activeSignals.map Prod.snd).flatten

/-- The closed version of a signal produced inside `close_signal`. -/
def markClosed (s : Signal) (ex : ExitRecord) : Signal :=
  { s with status := .closed, exit_reason := some ex.reason,
           exit_price := some ex.exit_price, pips_gained := some ex.pips_gained }

/-- Inner loop of `close_signal` over one symbol bucket: close the first
signal with the given id, returning it and the remaining bucket. -/
def closeInBucket (signalId : String) (ex : ExitRecord) :
    List Signal → Option (Signal × List Signal)
  | [] => none
  | s :: rest =>
      if s.signal_id = signalId then some (markClosed s ex, rest)
      else (closeInBucket signalId ex rest).map (fun p => (p.1, s :: p.2))

/-- Outer loop of `close_signal` over the symbol buckets. -/
def closeInBuckets (signalId : String) (ex : ExitRecord) :
    List (String × List Signal) → Option (Signal × List (String × List Signal))
  | [] => none
  | (sym, sigs) :: rest =>
      match closeInBucket signalId ex sigs with
      | some (closedSig, sigs2) => some (closedSig, (sym, sigs2) :: rest)
      | none => (closeInBuckets signalId ex rest).map (fun p => (p.1, (sym, sigs) :: p.2))

/-- `LiveSignalGenerator.close_signal`: returns the Python boolean result
together with the new state. -/
def closeSignal (st : GenState) (signalId : String) (ex : ExitRecord) : Bool × GenState :=
  match closeInBuckets signalId ex st.activeSignals with
  | some (closedSig, buckets) =>
      (true,
       { activeSignals := buckets,
         closedSignals := st.closedSignals ++ [closedSig],
         session_stats := updateSessionStats st.session_stats ex })
  | none => (false, st)

/-- `SignalSchedulerService._is_duplicate_signal`. -/
def isDuplicateSignal (st : GenState) (newSignal : Signal) : Bool :=
  (getActiveSignals st newSignal.symbol).any (fun existingSignal =>
    existingSignal.timeframe = newSignal.timeframe ∧
    |existingSignal.entry - newSignal.entry| < 0.001 ∧
    existingSignal.status = .active)

/-! ## Concrete inputs used by witnesses and counterexamples -/

/-- Candle with the given high / low; open, close set to `c`. -/
def mkC (h l c : ℚ) : Candle :=
  { timestamp := 0, open_ := c, high := h, low := l, close := c, volume := 0 }

def dummyTargets : TargetLevels := ⟨0, 0, 0, 0, 0, 0⟩

def dummyFvg : FVGRecord :=
  { id := "", type := .bullish, formation_time := 0, formation_index := 0,
    gap_top := 0, gap_bottom := 0, gap_size := 0, status := .active,
    fill_price := none, fill_time := none, fill_index := none,
    target_levels := dummyTargets, confidence := 0 }

def dummySuggestion : Suggestion :=
  { setup_id := "", type := .bullish, entry_price := 0, stop_loss := 0,
    take_profit_1 := 0, take_profit_2 := 0, risk_reward_1 := 0, risk_reward_2 := 0,
    position_size := ⟨0, 0, 0⟩, confidence := 0, setup_quality := 0 }

/-- Ten-candle series with a single clear bullish gap in window (0,1,2):
`low[0] = 1.1050 > high[2] + 0.0002 = 1.0882`; no later candle reaches the
gap bottom, so the gap stays active. -/
def c1Candles : List Candle :=
  [ mkC 1.1080 1.1050 1.1070,
    mkC 1.1060 1.0900 1.0950,
    mkC 1.0880 1.0850 1.0870,
    mkC 1.0900 1.0850 1.0880, mkC 1.0900 1.0850 1.0880, mkC 1.0900 1.0850 1.0880,
    mkC 1.0900 1.0850 1.0880, mkC 1.0900 1.0850 1.0880, mkC 1.0900 1.0850 1.0880,
    mkC 1.0900 1.0850 1.0880 ]

/-- Buy-side liquidity level within 0.002 of the gap's entry price 1.1050. -/
def c1Level : LiqLevel :=
  { price := 1.1040, strength := 0.9, distance := 0.01, significance := .high }

def c1Liquidity : LiquidityLevels :=
  { buy_side_liquidity := [c1Level], sell_side_liquidity := [],
    strongest_buy := some c1Level, strongest_sell := none, analysis_complete := true }

/-- A bullish-biased EMA context. -/
def c1Bias : BiasResult :=
  { bias := .bullish, confidence := 1, ema_value := 1.09, current_price := 1.088,
    price_vs_ema := 0.002 }

/-- Mirror scenario with a single bearish gap in window (0,1,2) that stays
active, a bearish bias and a matching sell-side liquidity level. -/
def c2Candles : List Candle :=
  [ mkC 1.0880 1.0850 1.0870,
    mkC 1.1070 1.0860 1.1000,
    mkC 1.1080 1.1050 1.1060,
    mkC 1.1100 1.1060 1.1080, mkC 1.1100 1.1060 1.1080, mkC 1.1100 1.1060 1.1080,
    mkC 1.1100 1.1060 1.1080, mkC 1.1100 1.1060 1.1080, mkC 1.1100 1.1060 1.1080,
    mkC 1.1100 1.1060 1.1080 ]

def c2Level : LiqLevel :=
  { price := 1.1040, strength := 0.9, distance := 0.01, significance := .high }

def c2Liquidity : LiquidityLevels :=
  { buy_side_liquidity := [], sell_side_liquidity := [c2Level],
    strongest_buy := none, strongest_sell := some c2Level, analysis_complete := true }

def c2Bias : BiasResult :=
  { bias := .bearish, confidence := 1, ema_value := 1.11, current_price := 1.108,
    price_vs_ema := -0.002 }

/-- Twenty candles whose closes sit at 1.0 except a final jump to 2.0: on D1
(EMA period 20) this yields a bullish bias. -/
def bull20 : List Candle := List.replicate 19 (mkC 1 1 1) ++ [mkC 2 2 2]

/-- Fifty candles whose closes sit at 2.0 except a final drop to 1.0: on H4
(EMA period 50) this yields a bearish bias. -/
def bear50 : List Candle := List.replicate 49 (mkC 2 2 2) ++ [mkC 1 1 1]

/-- One bullish vote and one bearish vote: a bullish/bearish tie. -/
def ctf2 : List (String × List Candle) := [("D1", bull20), ("H4", bear50)]

/-- Five candles with a bullish gap in window (0,1,2) that candle 3 fills
immediately (`high[3] = 1.2 ≥ gap_bottom = 1.1`). -/
def c5Candles : List Candle :=
  [ mkC 1.2000 1.1000 1.1500,
    mkC 1.1500 1.0500 1.1000,
    mkC 1.0500 1.0000 1.0200,
    mkC 1.2000 1.0100 1.1500,
    mkC 1.2000 1.0100 1.1500 ]

/-- The gap data of the `c5Candles` window (0,1,2). -/
def c5Gap : FvgData :=
  { type := .bullish, gap_top := 1.0500, gap_bottom := 1.1000, gap_size := 0.05 }

/-- Active bullish signal from the spec's lifecycle example. -/
def c6Signal : Signal :=
  { signal_id := "sig_c6", symbol := "frxEURUSD", timeframe := "H1",
    entry := 1.1000, stop_loss := 1.0950, take_profit := 1.1100,
    confidence := 0.8, expires_at := 1000, status := .active,
    exit_reason := none, exit_price := none, pips_gained := none }

/-- Existing active H1 signal with entry 1.0850. -/
def c7Existing : Signal :=
  { signal_id := "sig_a", symbol := "frxEURUSD", timeframe := "H1",
    entry := 1.0850, stop_loss := 1.0800, take_profit := 1.0950,
    confidence := 0.8, expires_at := 1000, status := .active,
    exit_reason := none, exit_price := none, pips_gained := none }

def emptyStats : SessionStats := ⟨0, 0, 0, 0, 0⟩

def c7State : GenState :=
  { activeSignals := [("frxEURUSD", [c7Existing])], closedSignals := [],
    session_stats := emptyStats }

/-- Candidate with entry 1.0851 on H1 (within 0.001 of the existing entry). -/
def c7CandidateNear : Signal := { c7Existing with signal_id := "sig_b", entry := 1.0851 }

/-- Candidate with entry 1.0900 on H1 (not within 0.001). -/
def c7CandidateFar : Signal := { c7Existing with signal_id := "sig_c", entry := 1.0900 }

def c8NeutralBias : BiasResult :=
  { bias := .neutral, confidence := 0.3, ema_value := 1.1, current_price := 1.1,
    price_vs_ema := 0 }

def c10Exit : ExitRecord :=
  { reason := .target_hit, exit_price := 1.1, pips_gained := 100, signal_id := "sig_x" }

def c10ClosedSignal : Signal := { c7Existing with status := .closed }

/-- Per-timeframe bias votes of a timeframe → candles mapping, each computed
independently by `determine_bias`. -/
def votesOf (candlesByTf : List (String × List Candle)) : List BiasKind :=
  candlesByTf.map (fun p => (determineBias p.2 p.1).bias)

/-- Per-timeframe confidences of a timeframe → candles mapping. -/
def biasConfidences (candlesByTf : List (String × List Candle)) : List ℚ :=
  candlesByTf.map (fun p => (determineBias p.2 p.1).confidence)

/-! ## Helper lemmas -/

theorem getD_drop' {α : Type} (d : α) : ∀ (l : List α) (n m : ℕ),
    (l.drop n).getD m d = l.getD (n + m) d
  | [], n, m => by simp
  | _ :: _, 0, m => by simp
  | _ :: t, n + 1, m => by
      simpa [Nat.succ_add] using getD_drop' d t n m

theorem drop_append_le {α : Type} : ∀ (l₁ l₂ : List α) (n : ℕ), n ≤ l₁.length →
    (l₁ ++ l₂).drop n = l₁.drop n ++ l₂
  | _, _, 0, _ => by simp
  | [], _, n + 1, h => by simp at h
  | _ :: t, l₂, n + 1, h => by
      simpa using drop_append_le t l₂ n (Nat.le_of_succ_le_succ h)

/-- Soundness and minimality of the fill scan: a successful scan returns the
first qualifying candle. -/
theorem findFill_some_spec (ty : FvgKind) (gt gb : ℚ) :
    ∀ (l : List Candle) (s j : ℕ) (c : Candle),
      findFill ty gt gb l s = some (j, c) →
      s ≤ j ∧ j - s < l.length ∧ l.getD (j - s) dummyCandle = c ∧
        fillCondition ty gt gb c ∧
        ∀ k, s ≤ k → k < j → ¬ fillCondition ty gt gb (l.getD (k - s) dummyCandle)
  | [], s, j, c, h => by simp [findFill] at h
  | c₀ :: rest, s, j, c, h => by
      by_cases h₀ : fillCondition ty gt gb c₀
      · rw [findFill, if_pos h₀] at h
        obtain ⟨rfl, rfl⟩ : s = j ∧ c₀ = c := by
          constructor <;> [exact congrArg Prod.fst (Option.some.inj h);
            exact congrArg Prod.snd (Option.some.inj h)]
        refine ⟨le_refl _, by simp, by simp, h₀, ?_⟩
        intro k hk hk2
        omega
      · rw [findFill, if_neg h₀] at h
        obtain ⟨hsj, hlen, hget, hcond, hmin⟩ := findFill_some_spec ty gt gb rest (s + 1) j c h
        have hsj' : s ≤ j := by omega
        obtain ⟨m, hm⟩ : ∃ m, j - s = m + 1 := ⟨j - (s + 1), by omega⟩
        have hm' : m = j - (s + 1) := by omega
        refine ⟨hsj', by simp; omega, ?_, hcond, ?_⟩
        · rw [hm]
          simpa [hm'] using hget
        · intro k hk hkj
          rcases Nat.eq_or_lt_of_le hk with rfl | hk'
          · simpa using h₀
          · obtain ⟨m', hm2⟩ : ∃ m', k - s = m' + 1 := ⟨k - (s + 1), by omega⟩
            have hm2' : m' = k - (s + 1) := by omega
            rw [hm2]
            simpa [hm2'] using hmin k (by omega) hkj

/-- A failed fill scan means no candle in the scanned list qualifies. -/
theorem findFill_none_spec (ty : FvgKind) (gt gb : ℚ) :
    ∀ (l : List Candle) (s : ℕ), findFill ty gt gb l s = none →
      ∀ m, m < l.length → ¬ fillCondition ty gt gb (l.getD m dummyCandle)
  | [], _, _ => by simp
  | c₀ :: rest, s, h => by
      by_cases h₀ : fillCondition ty gt gb c₀
      · rw [findFill, if_pos h₀] at h
        exact absurd h (by simp)
      · rw [findFill, if_neg h₀] at h
        intro m hm
        cases m with
        | zero => simpa using h₀
        | succ m' => simpa using findFill_none_spec ty gt gb rest (s + 1) h m' (by simpa using hm)

/-- Appending candles does not change a successful fill scan. -/
theorem findFill_append (ty : FvgKind) (gt gb : ℚ) :
    ∀ (l ext : List Candle) (s : ℕ) (r : ℕ × Candle),
      findFill ty gt gb l s = some r → findFill ty gt gb (l ++ ext) s = some r
  | [], _, s, r, h => by simp [findFill] at h
  | c₀ :: rest, ext, s, r, h => by
      by_cases h₀ : fillCondition ty gt gb c₀
      · rw [findFill, if_pos h₀] at h
        simpa [findFill, if_pos h₀] using h
      · rw [findFill, if_neg h₀] at h
        simpa [findFill, if_neg h₀] using findFill_append ty gt gb rest ext (s + 1) r h

/-- Inversion principle for `_check_fvg_status`. -/
theorem checkFvgStatus_cases (candles : List Candle) (index : ℕ) (d : FvgData) :
    (∃ j c,
        findFill d.type d.gap_top d.gap_bottom (candles.drop (index + 1)) (index + 1) = some (j, c) ∧
        checkFvgStatus candles index d =
          { status := .filled,
            fill_price := some (match d.type with | .bullish => d.gap_bottom | .bearish => d.gap_top),
            fill_time := some c.timestamp, fill_index := some j }) ∨
    (findFill d.type d.gap_top d.gap_bottom (candles.drop (index + 1)) (index + 1) = none ∧
        checkFvgStatus candles index d =
          { status := .active, fill_price := none, fill_time := none, fill_index := none }) := by
  unfold checkFvgStatus
  split
  next j c heq => exact Or.inl ⟨j, c, heq, rfl⟩
  next heq => exact Or.inr ⟨heq, rfl⟩

/-- Characterization of the status computed by `_check_fvg_status`. -/
theorem checkFvgStatus_filled_iff (candles : List Candle) (index : ℕ) (d : FvgData) :
    (checkFvgStatus candles index d).status = .filled ↔
      ∃ j, index < j ∧ j < candles.length ∧
        fillCondition d.type d.gap_top d.gap_bottom (candles.getD j dummyCandle) := by
  rcases checkFvgStatus_cases candles index d with ⟨j, c, hf, hst⟩ | ⟨hf, hst⟩
  · rw [hst]
    simp only [true_iff]
    obtain ⟨hsj, hlen, hget, hcond, _⟩ :=
      findFill_some_spec d.type d.gap_top d.gap_bottom _ _ _ _ hf
    rw [List.length_drop] at hlen
    refine ⟨j, by omega, by omega, ?_⟩
    rw [getD_drop', show index + 1 + (j - (index + 1)) = j by omega] at hget
    rwa [hget]
  · rw [hst]
    simp only
    constructor
    · intro hcontra
      exact absurd hcontra (by simp)
    · rintro ⟨j, hij, hjlen, hcond⟩
      exfalso
      have hs : index + 1 ≤ j := hij
      have hnone := findFill_none_spec d.type d.gap_top d.gap_bottom _ _ hf (j - (index + 1))
        (by simp; omega)
      rw [getD_drop', show index + 1 + (j - (index + 1)) = j by omega] at hnone
      exact hnone hcond

/-- The recorded `fill_index` is the first qualifying candle index. -/
theorem checkFvgStatus_fill_index_spec (candles : List Candle) (index : ℕ) (d : FvgData)
    (j : ℕ) (h : (checkFvgStatus candles index d).fill_index = some j) :
    index < j ∧ j < candles.length ∧
      fillCondition d.type d.gap_top d.gap_bottom (candles.getD j dummyCandle) ∧
      ∀ k, index < k → k < j →
        ¬ fillCondition d.type d.gap_top d.gap_bottom (candles.getD k dummyCandle) := by
  rcases checkFvgStatus_cases candles index d with ⟨j', c, hf, hst⟩ | ⟨hf, hst⟩
  · rw [hst] at h
    obtain rfl : j' = j := by simpa using h
    obtain ⟨hsj, hlen, hget, hcond, hmin⟩ :=
      findFill_some_spec d.type d.gap_top d.gap_bottom _ _ _ _ hf
    rw [List.length_drop] at hlen
    rw [getD_drop', show index + 1 + (j' - (index + 1)) = j' by omega] at hget
    refine ⟨by omega, by omega, by rwa [hget], ?_⟩
    intro k hk hkj
    have hm := hmin k (by omega) hkj
    rwa [getD_drop', show index + 1 + (k - (index + 1)) = k by omega] at hm
  · rw [hst] at h
    simp at h

/-- The active → filled transition is one-way: once filled against a candle
list, the status (and the recorded fill data) is unchanged by any extension
of the list. -/
theorem checkFvgStatus_append (candles ext : List Candle) (index : ℕ) (d : FvgData)
    (h : (checkFvgStatus candles index d).status = .filled) :
    checkFvgStatus (candles ++ ext) index d = checkFvgStatus candles index d := by
  rcases checkFvgStatus_cases candles index d with ⟨j, c, hf, hst⟩ | ⟨hf, hst⟩
  · obtain ⟨hsj, hlen, _, _, _⟩ :=
      findFill_some_spec d.type d.gap_top d.gap_bottom _ _ _ _ hf
    rw [List.length_drop] at hlen
    have hle : index + 1 ≤ candles.length := by omega
    rw [hst]
    unfold checkFvgStatus
    rw [drop_append_le candles ext _ hle,
      findFill_append d.type d.gap_top d.gap_bottom _ ext _ _ hf]
  · rw [hst] at h
    exact absurd h (by simp)

/-! ## Claim theorems -/

theorem checkBullishFvg_eq_some (high1 low1 high2 low2 high3 low3 : ℚ)
    (hgt : high3 < low1) (hmin : minGapSize ≤ low1 - high3) :
    checkBullishFvg high1 low1 high2 low2 high3 low3 =
      some { type := .bullish, gap_top := high3, gap_bottom := low1, gap_size := low1 - high3 } := by
  unfold checkBullishFvg
  rw [if_pos hgt, if_pos hmin]

theorem checkBullishFvg_some_inv (high1 low1 high2 low2 high3 low3 : ℚ) (d : FvgData)
    (h : checkBullishFvg high1 low1 high2 low2 high3 low3 = some d) :
    d = { type := .bullish, gap_top := high3, gap_bottom := low1, gap_size := low1 - high3 } ∧
    minGapSize ≤ d.gap_size ∧ high3 < low1 := by
  simp only [checkBullishFvg] at h
  split at h
  next hgt =>
    split at h
    next hmin => exact ⟨(Option.some.inj h).symm, by rw [← Option.some.inj h]; exact hmin, hgt⟩
    next => simp at h
  next => simp at h

theorem checkBearishFvg_some_inv (high1 low1 high2 low2 high3 low3 : ℚ) (d : FvgData)
    (h : checkBearishFvg high1 low1 high2 low2 high3 low3 = some d) :
    d = { type := .bearish, gap_top := low3, gap_bottom := high1, gap_size := low3 - high1 } ∧
    minGapSize ≤ d.gap_size ∧ high1 < low3 := by
  simp only [checkBearishFvg] at h
  split at h
  next hgt =>
    split at h
    next hmin => exact ⟨(Option.some.inj h).symm, by rw [← Option.some.inj h]; exact hmin, hgt⟩
    next => simp at h
  next => simp at h

theorem fvgState_active_iff (s : FvgState) : s = .active ↔ ¬ (s = .filled) := by
  cases s <;> simp

/-- For a bullish gap the source's inverted `gap_top`/`gap_bottom` assignment
(`gap_size = gap_bottom - gap_top`) forces constant risk-reward ratios. -/
theorem calculateFvgTargets_bullish (d : FvgData)
    (hsz : d.gap_size = d.gap_bottom - d.gap_top) (hpos : 0 < d.gap_size) :
    (calculateFvgTargets d .bullish).risk_reward_1 = -2 ∧
    (calculateFvgTargets d .bullish).risk_reward_2 = 0 := by
  have hne : d.gap_bottom - (d.gap_bottom - d.gap_size * 0.5) ≠ 0 := by
    have : d.gap_bottom - (d.gap_bottom - d.gap_size * 0.5) = d.gap_size * 0.5 := by ring
    rw [this]
    have h05 : (0 : ℚ) < 0.5 := by norm_num
    positivity
  have hr1 : (d.gap_top - d.gap_bottom) / (d.gap_bottom - (d.gap_bottom - d.gap_size * 0.5)) = -2 := by
    rw [div_eq_iff hne]
    have h05 : (0.5 : ℚ) = 1 / 2 := by norm_num
    rw [h05]
    linarith
  have hr2 : (d.gap_top + d.gap_size * 1.0 - d.gap_bottom) /
      (d.gap_bottom - (d.gap_bottom - d.gap_size * 0.5)) = 0 := by
    have hnum : d.gap_top + d.gap_size * 1.0 - d.gap_bottom = 0 := by
      have h1 : (1.0 : ℚ) = 1 := by norm_num
      rw [h1]
      linarith
    rw [hnum, zero_div]
  constructor
  · show pyRound ((d.gap_top - d.gap_bottom) /
        (d.gap_bottom - (d.gap_bottom - d.gap_size * 0.5))) 2 = -2
    rw [hr1]
    with_unfolding_all decide
  · show pyRound ((d.gap_top + d.gap_size * 1.0 - d.gap_bottom) /
        (d.gap_bottom - (d.gap_bottom - d.gap_size * 0.5))) 2 = 0
    rw [hr2]
    with_unfolding_all decide

/-- For a bearish gap (`gap_size = gap_top - gap_bottom`) the risk-reward
ratios are the constants 2 and 4. -/
theorem calculateFvgTargets_bearish (d : FvgData)
    (hsz : d.gap_size = d.gap_top - d.gap_bottom) (hpos : 0 < d.gap_size) :
    (calculateFvgTargets d .bearish).risk_reward_1 = 2 ∧
    (calculateFvgTargets d .bearish).risk_reward_2 = 4 := by
  have hne : d.gap_top + d.gap_size * 0.5 - d.gap_top ≠ 0 := by
    have : d.gap_top + d.gap_size * 0.5 - d.gap_top = d.gap_size * 0.5 := by ring
    rw [this]
    have h05 : (0 : ℚ) < 0.5 := by norm_num
    positivity
  have h05 : (0.5 : ℚ) = 1 / 2 := by norm_num
  have hr1 : (d.gap_top - d.gap_bottom) / (d.gap_top + d.gap_size * 0.5 - d.gap_top) = 2 := by
    rw [div_eq_iff hne, h05]
    linarith
  have hr2 : (d.gap_top - (d.gap_bottom - d.gap_size * 1.0)) /
      (d.gap_top + d.gap_size * 0.5 - d.gap_top) = 4 := by
    rw [div_eq_iff hne, h05]
    have h1 : (1.0 : ℚ) = 1 := by norm_num
    rw [h1]
    linarith
  constructor
  · show pyRound ((d.gap_top - d.gap_bottom) /
        (d.gap_top + d.gap_size * 0.5 - d.gap_top)) 2 = 2
    rw [hr1]
    with_unfolding_all decide
  · show pyRound ((d.gap_top - (d.gap_bottom - d.gap_size * 1.0)) /
        (d.gap_top + d.gap_size * 0.5 - d.gap_top)) 2 = 4
    rw [hr2]
    with_unfolding_all decide

theorem detectFvgs_mem_inv (candles : List Candle) (r : FVGRecord)
    (h : r ∈ (detectFvgs candles).fvgs) : ∃ i, analyzeSingleFvg candles i = some r := by
  simp only [detectFvgs] at h
  by_cases hlen : candles.length < 5
  · rw [if_pos hlen] at h
    simp at h
  · rw [if_neg hlen] at h
    obtain ⟨i, _, hi⟩ := List.mem_filterMap.mp h
    exact ⟨i, hi⟩

theorem detectFvgs_active_sub (candles : List Candle) (f : FVGRecord)
    (hf : f ∈ (detectFvgs candles).active_fvgs) : f ∈ (detectFvgs candles).fvgs := by
  simp only [detectFvgs] at hf ⊢
  by_cases hlen : candles.length < 5
  · rw [if_pos hlen] at hf
    simp at hf
  · rw [if_neg hlen] at hf ⊢
    exact (List.mem_filter.mp hf).1

theorem analyzeSingleFvg_some_inv (candles : List Candle) (i : ℕ) (r : FVGRecord)
    (h : analyzeSingleFvg candles i = some r) :
    ∃ d ty, r = createFvgRecord candles i d ty (candles.getD (i - 1) dummyCandle) ∧
      ((ty = FvgKind.bullish ∧ d.type = .bullish ∧
          d.gap_size = d.gap_bottom - d.gap_top ∧ minGapSize ≤ d.gap_size) ∨
       (ty = FvgKind.bearish ∧ d.type = .bearish ∧
          d.gap_size = d.gap_top - d.gap_bottom ∧ minGapSize ≤ d.gap_size)) := by
  simp only [analyzeSingleFvg] at h
  split at h
  · simp at h
  · split at h
    next d hd =>
      obtain ⟨hdval, hmin, _⟩ := checkBullishFvg_some_inv _ _ _ _ _ _ d hd
      refine ⟨d, .bullish, (Option.some.inj h).symm, Or.inl ⟨rfl, ?_, ?_, hmin⟩⟩
      · rw [hdval]
      · rw [hdval]
    next =>
      split at h
      next d hd =>
        obtain ⟨hdval, hmin, _⟩ := checkBearishFvg_some_inv _ _ _ _ _ _ d hd
        refine ⟨d, .bearish, (Option.some.inj h).symm, Or.inr ⟨rfl, ?_, ?_, hmin⟩⟩
        · rw [hdval]
        · rw [hdval]
      next => simp at h

/-- Risk-reward ratios in every detected FVG record are constants determined
by the gap type alone. -/
theorem fvg_rr_const (candles : List Candle) (r : FVGRecord)
    (h : r ∈ (detectFvgs candles).fvgs) :
    (r.type = .bullish → r.target_levels.risk_reward_1 = -2 ∧
        r.target_levels.risk_reward_2 = 0 ∧ r.gap_top < r.gap_bottom) ∧
    (r.type = .bearish → r.target_levels.risk_reward_1 = 2 ∧
        r.target_levels.risk_reward_2 = 4) := by
  obtain ⟨i, hi⟩ := detectFvgs_mem_inv candles r h
  obtain ⟨d, ty, rfl, hcase⟩ := analyzeSingleFvg_some_inv candles i r hi
  have hminpos : (0 : ℚ) < minGapSize := by norm_num [minGapSize]
  rcases hcase with ⟨rfl, hdty, hsz, hmin⟩ | ⟨rfl, hdty, hsz, hmin⟩
  · constructor
    · intro _
      have hpos : 0 < d.gap_size := lt_of_lt_of_le hminpos hmin
      have htargets := calculateFvgTargets_bullish d hsz hpos
      refine ⟨htargets.1, htargets.2, ?_⟩
      show d.gap_top < d.gap_bottom
      have := hsz ▸ hpos
      linarith
    · intro habs
      exact absurd habs (by simp [createFvgRecord])
  · constructor
    · intro habs
      exact absurd habs (by simp [createFvgRecord])
    · intro _
      have hpos : 0 < d.gap_size := lt_of_lt_of_le hminpos hmin
      exact calculateFvgTargets_bearish d hsz hpos

theorem evaluateSilverBulletSetup_fvg (fvg : FVGRecord) (liq : LiquidityLevels)
    (bias : BiasResult) (setup : Setup)
    (h : evaluateSilverBulletSetup fvg liq bias = some setup) : setup.fvg = fvg := by
  simp only [evaluateSilverBulletSetup] at h
  split at h
  · simp at h
  · split at h
    next => simp at h
    next prox _ =>
      rw [← Option.some.inj h]

theorem getSilverBulletSetups_mem_inv (candles : List Candle) (liq : LiquidityLevels)
    (bias : BiasResult) (setup : Setup)
    (h : setup ∈ getSilverBulletSetups candles liq bias) :
    setup.fvg ∈ (detectFvgs candles).fvgs := by
  simp only [getSilverBulletSetups] at h
  split at h
  · simp at h
  · obtain ⟨fvg, hmem, heval⟩ := List.mem_filterMap.mp h
    rw [evaluateSilverBulletSetup_fvg _ _ _ _ heval]
    exact detectFvgs_active_sub candles fvg hmem

theorem generateTradeSuggestions_mem_inv (setups : List Setup) (cp : ℚ) (s : Suggestion)
    (h : s ∈ generateTradeSuggestions setups cp) :
    ∃ setup ∈ setups, s.type = setup.fvg.type ∧
      (minRiskReward ≤ setup.fvg.target_levels.risk_reward_1 ∨
       minRiskReward ≤ setup.fvg.target_levels.risk_reward_2) := by
  simp only [generateTradeSuggestions] at h
  obtain ⟨setup, hmem, hsome⟩ := List.mem_filterMap.mp h
  split at hsome
  next hcond => exact ⟨setup, hmem, by rw [← Option.some.inj hsome], hcond⟩
  next => simp at hsome

/-- Every trade suggestion emitted by the engine pipeline stems from a
bearish FVG: bullish ratios (-2, 0) never pass the ≥ 2 check. -/
theorem engineSuggestions_bearish (candles : List Candle) (liq : LiquidityLevels)
    (bias : BiasResult) (cp : ℚ) :
    ∀ s ∈ engineSuggestions candles liq bias cp, s.type = .bearish := by
  intro s hs
  simp only [engineSuggestions] at hs
  obtain ⟨setup, hmem, htype, hrr⟩ := generateTradeSuggestions_mem_inv _ _ _ hs
  simp only [highQualitySetups] at hmem
  have hmem2 : setup ∈ getSilverBulletSetups candles liq bias := (List.mem_filter.mp hmem).1
  have hfvg := getSilverBulletSetups_mem_inv _ _ _ _ hmem2
  rcases htyp : setup.fvg.type with _ | _
  · exfalso
    obtain ⟨hr1, hr2, _⟩ := (fvg_rr_const candles setup.fvg hfvg).1 htyp
    rw [hr1, hr2] at hrr
    have : (2.0 : ℚ) = 2 := by norm_num
    rcases hrr with hc | hc <;> rw [minRiskReward, this] at hc <;> linarith
  · rw [htype, htyp]

/-- C5 (amended): for every candle series with at least 5 candles and every
index `i` with `2 ≤ i ≤ n-2` such that `low[i-2] > high[i] + 0.0002`, the
window produces exactly one FVG record, it is bullish (no bearish FVG fires
for the same window), with `gap_size = low[i-2] - high[i]` rounded to 5
decimals; its status is `active` iff no candle after the window reaches the
gap bottom `low[i-2]` (the source computes the fill scan at creation, so the
emitted status is `filled` when a later candle already fills the gap). -/
theorem c5_bullish_window (candles : List Candle) (i : ℕ)
    (h5 : 5 ≤ candles.length) (h2 : 2 ≤ i) (hup : i + 2 ≤ candles.length)
    (hgap : (candles.getD i dummyCandle).high + 0.0002 < (candles.getD (i - 2) dummyCandle).low) :
    ∃ r, analyzeSingleFvg candles i = some r ∧ r ∈ (detectFvgs candles).fvgs ∧
      r.type = .bullish ∧
      r.gap_size =
        pyRound ((candles.getD (i - 2) dummyCandle).low - (candles.getD i dummyCandle).high) 5 ∧
      (r.status = .active ↔ ∀ j, i < j → j < candles.length →
        (candles.getD j dummyCandle).high < (candles.getD (i - 2) dummyCandle).low) := by
  have hpos : (0 : ℚ) < 0.0002 := by norm_num
  have hgt : (candles.getD i dummyCandle).high < (candles.getD (i - 2) dummyCandle).low := by
    linarith
  have hmin : minGapSize ≤
      (candles.getD (i - 2) dummyCandle).low - (candles.getD i dummyCandle).high := by
    unfold minGapSize
    linarith
  set d : FvgData :=
    { type := .bullish, gap_top := (candles.getD i dummyCandle).high,
      gap_bottom := (candles.getD (i - 2) dummyCandle).low,
      gap_size := (candles.getD (i - 2) dummyCandle).low - (candles.getD i dummyCandle).high }
    with hd_def
  have hd : checkBullishFvg (candles.getD (i - 2) dummyCandle).high
      (candles.getD (i - 2) dummyCandle).low (candles.getD (i - 1) dummyCandle).high
      (candles.getD (i - 1) dummyCandle).low (candles.getD i dummyCandle).high
      (candles.getD i dummyCandle).low = some d :=
    checkBullishFvg_eq_some _ _ _ _ _ _ hgt hmin
  have hguard : ¬ (i < 2 ∨ candles.length ≤ i + 1) := by omega
  have heq : analyzeSingleFvg candles i =
      some (createFvgRecord candles i d .bullish (candles.getD (i - 1) dummyCandle)) := by
    simp only [analyzeSingleFvg]
    rw [if_neg hguard, hd]
  refine ⟨createFvgRecord candles i d .bullish (candles.getD (i - 1) dummyCandle),
    heq, ?_, rfl, rfl, ?_⟩
  · simp only [detectFvgs]
    rw [if_neg (by omega : ¬ (candles.length < 5))]
    exact List.mem_filterMap.mpr ⟨i, List.mem_range.mpr (by omega), heq⟩
  · have hstat : (createFvgRecord candles i d .bullish (candles.getD (i - 1) dummyCandle)).status =
        (checkFvgStatus candles i d).status := rfl
    rw [hstat, fvgState_active_iff, checkFvgStatus_filled_iff]
    simp only [hd_def, fillCondition]
    push_neg
    exact ⟨fun h j a b => h j a b, fun h j a b => h j a b⟩

/-- C5 counterexample to the claim as stated: this five-candle series
satisfies the claim's window condition at `i = 2`
(`low[0] > high[2] + 0.0002`), yet the emitted FVG's status is `filled`,
not `active` (candle 3 fills it immediately). -/
theorem c5_counterexample :
    (c5Candles.getD 2 dummyCandle).high + 0.0002 < (c5Candles.getD 0 dummyCandle).low ∧
    5 ≤ c5Candles.length ∧
    (analyzeSingleFvg c5Candles 2).map FVGRecord.status = some .filled :=
  ⟨by with_unfolding_all decide, by decide, by with_unfolding_all decide⟩

/-- C5 witness: the amended theorem applied to the concrete `c1Candles`
series at window index 2. -/
theorem c5_bullish_window_witness :
    ∃ r, analyzeSingleFvg c1Candles 2 = some r ∧ r ∈ (detectFvgs c1Candles).fvgs ∧
      r.type = .bullish ∧
      r.gap_size =
        pyRound ((c1Candles.getD 0 dummyCandle).low - (c1Candles.getD 2 dummyCandle).high) 5 ∧
      (r.status = .active ↔ ∀ j, 2 < j → j < c1Candles.length →
        (c1Candles.getD j dummyCandle).high < (c1Candles.getD 0 dummyCandle).low) :=
  c5_bullish_window c1Candles 2 (by decide) (by decide) (by decide)
    (by with_unfolding_all decide)

/-- The loop of `get_multi_timeframe_bias` computes per-timeframe results
independently, counts votes and totals the confidences. -/
theorem mtfFold_eq (l : List (String × List Candle)) :
    mtfFold l =
      (l.map (fun p => (p.1, determineBias p.2 p.1)),
       ⟨(votesOf l).count .bullish, (votesOf l).count .bearish, (votesOf l).count .neutral⟩,
       (biasConfidences l).sum) := by
  induction l with
  | nil => rfl
  | cons p rest ih =>
      obtain ⟨tf, cs⟩ := p
      simp only [mtfFold, ih, votesOf, biasConfidences, List.map_cons, List.sum_cons]
      rcases hb : (determineBias cs tf).bias <;>
        simp [bumpCount, hb, List.count_cons, votesOf, biasConfidences]

/-- C3 (amended): multi-timeframe aggregation computes each timeframe's bias
independently (`timeframe_analysis` lists the per-timeframe results), the
overall confidence is the simple average of the per-timeframe confidences
rounded to 2 decimals, and the majority vote resolves ties in favour of
bullish, then bearish: bullish wins whenever its count is ≥ both others (in
particular an equal count of bullish and bearish votes yields bullish, not
neutral); bearish wins when it strictly beats bullish and is ≥ neutral;
neutral wins only when it strictly beats both. -/
theorem c3_multi_timeframe_bias (candlesByTf : List (String × List Candle))
    (hne : candlesByTf ≠ []) :
    (getMultiTimeframeBias candlesByTf).timeframe_analysis =
        candlesByTf.map (fun p => (p.1, determineBias p.2 p.1)) ∧
    (getMultiTimeframeBias candlesByTf).overall_confidence =
        pyRound ((biasConfidences candlesByTf).sum / (candlesByTf.length : ℚ)) 2 ∧
    ((votesOf candlesByTf).count .bearish ≤ (votesOf candlesByTf).count .bullish →
      (votesOf candlesByTf).count .neutral ≤ (votesOf candlesByTf).count .bullish →
      (getMultiTimeframeBias candlesByTf).overall_bias = .bullish) ∧
    ((votesOf candlesByTf).count .bullish < (votesOf candlesByTf).count .bearish →
      (votesOf candlesByTf).count .neutral ≤ (votesOf candlesByTf).count .bearish →
      (getMultiTimeframeBias candlesByTf).overall_bias = .bearish) ∧
    ((votesOf candlesByTf).count .bullish < (votesOf candlesByTf).count .neutral →
      (votesOf candlesByTf).count .bearish < (votesOf candlesByTf).count .neutral →
      (getMultiTimeframeBias candlesByTf).overall_bias = .neutral) := by
  have hlen : candlesByTf.length ≠ 0 := fun h => hne (List.length_eq_zero.mp h)
  simp only [getMultiTimeframeBias, mtfFold_eq]
  refine ⟨trivial, by rw [if_neg hlen], ?_, ?_, ?_⟩
  · intro h1 h2
    rw [if_pos (by omega : max ((votesOf candlesByTf).count .bullish)
      (max ((votesOf candlesByTf).count .bearish) ((votesOf candlesByTf).count .neutral)) =
      (votesOf candlesByTf).count .bullish)]
  · intro h1 h2
    rw [if_neg (by omega : ¬ (max ((votesOf candlesByTf).count .bullish)
        (max ((votesOf candlesByTf).count .bearish) ((votesOf candlesByTf).count .neutral)) =
        (votesOf candlesByTf).count .bullish)),
      if_pos (by omega : max ((votesOf candlesByTf).count .bullish)
        (max ((votesOf candlesByTf).count .bearish) ((votesOf candlesByTf).count .neutral)) =
        (votesOf candlesByTf).count .bearish)]
  · intro h1 h2
    rw [if_neg (by omega : ¬ (max ((votesOf candlesByTf).count .bullish)
        (max ((votesOf candlesByTf).count .bearish) ((votesOf candlesByTf).count .neutral)) =
        (votesOf candlesByTf).count .bullish)),
      if_neg (by omega : ¬ (max ((votesOf candlesByTf).count .bullish)
        (max ((votesOf candlesByTf).count .bearish) ((votesOf candlesByTf).count .neutral)) =
        (votesOf candlesByTf).count .bearish))]

/-- C3 counterexample to the claim as stated: with one bullish vote (D1,
`bull20`) and one bearish vote (H4, `bear50`) — a bullish/bearish tie —
the aggregation reports `bullish`, not `neutral`. -/
theorem c3_counterexample :
    (determineBias bull20 "D1").bias = .bullish ∧
    (determineBias bear50 "H4").bias = .bearish ∧
    (getMultiTimeframeBias ctf2).overall_bias = .bullish ∧
    ¬ (getMultiTimeframeBias ctf2).overall_bias = .neutral :=
  ⟨by with_unfolding_all decide, by with_unfolding_all decide,
   by with_unfolding_all decide, by with_unfolding_all decide⟩

/-- C3 witness: the amended theorem applied to the concrete two-timeframe
mapping `ctf2` (counts: 1 bullish, 1 bearish, 0 neutral). -/
theorem c3_multi_timeframe_bias_witness :
    (getMultiTimeframeBias ctf2).overall_confidence =
        pyRound ((biasConfidences ctf2).sum / (ctf2.length : ℚ)) 2 ∧
    (getMultiTimeframeBias ctf2).overall_bias = .bullish :=
  have h := c3_multi_timeframe_bias ctf2 (by decide)
  ⟨h.2.1, h.2.2.1 (by with_unfolding_all decide) (by with_unfolding_all decide)⟩

/-- C2: in every detected FVG record the risk-reward ratios are constants
determined solely by the gap type — bullish: `risk_reward_1 = -2`,
`risk_reward_2 = 0` (with the inverted assignment `gap_bottom > gap_top`);
bearish: `risk_reward_1 = 2`, `risk_reward_2 = 4` — and consequently, under
the default minimum risk-reward 2.0, every trade suggestion the engine
emits stems from a bearish FVG. -/
theorem c2_rr_constants :
    (∀ (candles : List Candle) (r : FVGRecord), r ∈ (detectFvgs candles).fvgs →
      (r.type = .bullish → r.target_levels.risk_reward_1 = -2 ∧
          r.target_levels.risk_reward_2 = 0 ∧ r.gap_top < r.gap_bottom) ∧
      (r.type = .bearish → r.target_levels.risk_reward_1 = 2 ∧
          r.target_levels.risk_reward_2 = 4)) ∧
    (∀ (candles : List Candle) (liq : LiquidityLevels) (bias : BiasResult) (cp : ℚ),
      ∀ s ∈ engineSuggestions candles liq bias cp, s.type = .bearish) :=
  ⟨fvg_rr_const, engineSuggestions_bearish⟩

/-- C2 witness: the concrete bullish gap of `c1Candles` carries ratios
(-2, 0), and the one suggestion of the concrete bearish scenario is
bearish. -/
theorem c2_rr_constants_witness :
    ((detectFvgs c1Candles).fvgs.getD 0 dummyFvg).target_levels.risk_reward_1 = -2 ∧
    ((detectFvgs c1Candles).fvgs.getD 0 dummyFvg).target_levels.risk_reward_2 = 0 ∧
    ((engineSuggestions c2Candles c2Liquidity c2Bias 1.108).getD 0 dummySuggestion).type =
      .bearish :=
  have h1 := (c2_rr_constants.1 c1Candles ((detectFvgs c1Candles).fvgs.getD 0 dummyFvg)
      (by with_unfolding_all decide)).1 (by with_unfolding_all decide)
  ⟨h1.1, h1.2.1,
   c2_rr_constants.2 c2Candles c2Liquidity c2Bias 1.108
     ((engineSuggestions c2Candles c2Liquidity c2Bias 1.108).getD 0 dummySuggestion)
     (by with_unfolding_all decide)⟩

/-- C1: evaluation of the claim's end-to-end scenario. `c1Candles` is a
10-candle series with one clear bullish gap (entry price 1.1050), `c1Bias`
a bullish EMA context and `c1Liquidity` one buy-side level within 0.002 of
the entry; the pipeline produces exactly one (high-quality) Silver Bullet
setup, whose ratios are (-2, 0), and therefore emits zero trade
suggestions — not one suggestion with `risk_reward_1 ≥ 2`. -/
theorem c1_end_to_end_eval :
    c1Candles.length = 10 ∧
    (c1Candles.getD 2 dummyCandle).high + 0.0002 < (c1Candles.getD 0 dummyCandle).low ∧
    c1Bias.bias = .bullish ∧
    ((detectFvgs c1Candles).fvgs.map FVGRecord.status) = [.active] ∧
    |c1Level.price - ((detectFvgs c1Candles).fvgs.getD 0 dummyFvg).gap_bottom| < 0.002 ∧
    (getSilverBulletSetups c1Candles c1Liquidity c1Bias).length = 1 ∧
    (highQualitySetups (getSilverBulletSetups c1Candles c1Liquidity c1Bias)).map
      Setup.quality_score = [91 / 100] ∧
    ((getSilverBulletSetups c1Candles c1Liquidity c1Bias).map
      (fun s => (s.fvg.target_levels.risk_reward_1, s.fvg.target_levels.risk_reward_2))) =
      [(-2, 0)] ∧
    engineSuggestions c1Candles c1Liquidity c1Bias 1.088 = [] := by
  with_unfolding_all decide

/-- C4: for every FVG, `_check_fvg_status` reports `filled` iff some candle
after the formation window meets the fill condition (bullish: a later high
reaches `gap_bottom`; bearish: a later low reaches `gap_top`); in that case
`fill_index` is the minimal qualifying index; otherwise the status is
`active`; and the `active → filled` transition is one-way: extending the
candle list never reverses a `filled` status (nor changes its fill data). -/
theorem c4_fvg_fill_status (candles : List Candle) (index : ℕ) (d : FvgData) :
    ((checkFvgStatus candles index d).status = .filled ↔
      ∃ j, index < j ∧ j < candles.length ∧
        fillCondition d.type d.gap_top d.gap_bottom (candles.getD j dummyCandle)) ∧
    (∀ j, (checkFvgStatus candles index d).fill_index = some j →
      index < j ∧ j < candles.length ∧
        fillCondition d.type d.gap_top d.gap_bottom (candles.getD j dummyCandle) ∧
        ∀ k, index < k → k < j →
          ¬ fillCondition d.type d.gap_top d.gap_bottom (candles.getD k dummyCandle)) ∧
    ((checkFvgStatus candles index d).status = .filled →
      (checkFvgStatus candles index d).fill_index ≠ none) ∧
    (∀ ext, (checkFvgStatus candles index d).status = .filled →
      checkFvgStatus (candles ++ ext) index d = checkFvgStatus candles index d) :=
  ⟨checkFvgStatus_filled_iff candles index d,
   fun j h => checkFvgStatus_fill_index_spec candles index d j h,
   fun h => by
     rcases checkFvgStatus_cases candles index d with ⟨j, c, _, hst⟩ | ⟨_, hst⟩
     · rw [hst]
       simp
     · rw [hst] at h
       exact absurd h (by simp),
   fun ext h => checkFvgStatus_append candles ext index d h⟩

/-- C4 witness: on the concrete `c5Candles`, the gap formed at index 2 is
reported `filled` (candle 3 reaches the gap bottom), with fill index 3. -/
theorem c4_fvg_fill_status_witness :
    (checkFvgStatus c5Candles 2 c5Gap).status = .filled ∧
    (checkFvgStatus c5Candles 2 c5Gap).fill_index = some 3 ∧
    checkFvgStatus (c5Candles ++ [mkC 1 1 1]) 2 c5Gap = checkFvgStatus c5Candles 2 c5Gap := by
  have h1 : (checkFvgStatus c5Candles 2 c5Gap).status = .filled :=
    (c4_fvg_fill_status c5Candles 2 c5Gap).1.mpr
      ⟨3, by decide, by with_unfolding_all decide, by with_unfolding_all decide⟩
  refine ⟨h1, ?_, (c4_fvg_fill_status c5Candles 2 c5Gap).2.2.2 [mkC 1 1 1] h1⟩
  with_unfolding_all decide

/-- C6: for the concrete active bullish signal (entry 1.1000, stop 1.0950,
target 1.1100): price 1.1105 closes it as `target_hit` with +100.0 pips and
price 1.0940 as `stop_loss_hit` with -50.0 pips, in both cases regardless of
the clock (target and stop are checked before expiry); when neither level is
reached and the clock has passed `expires_at`, it closes as `time_expired`
at the current price with `|p - entry| * 10000` pips signed positive iff the
price moved favourably (above entry for this bullish signal). Exactly one
exit fires per evaluation, the returned `Option` holding the single result. -/
theorem c6_signal_lifecycle :
    (∀ now : ℤ, checkExitConditions c6Signal 1.1105 now =
      some { reason := .target_hit, exit_price := 1.1100, pips_gained := 100,
             signal_id := "sig_c6" }) ∧
    (∀ now : ℤ, checkExitConditions c6Signal 1.0940 now =
      some { reason := .stop_loss_hit, exit_price := 1.0950, pips_gained := -50,
             signal_id := "sig_c6" }) ∧
    (∀ (p : ℚ) (now : ℤ), 1.0950 < p → p < 1.1100 → c6Signal.expires_at < now →
      checkExitConditions c6Signal p now =
        some { reason := .time_expired, exit_price := p,
               pips_gained := pyRound
                 (if 1.1000 < p then |p - 1.1000| * 10000 else -(|p - 1.1000| * 10000)) 1,
               signal_id := "sig_c6" }) := by
  refine ⟨?_, ?_, ?_⟩
  · intro now
    simp only [checkExitConditions, c6Signal]
    rw [if_neg (by with_unfolding_all decide), if_pos (by with_unfolding_all decide)]
    with_unfolding_all decide
  · intro now
    simp only [checkExitConditions, c6Signal]
    rw [if_neg (by with_unfolding_all decide), if_neg (by with_unfolding_all decide),
      if_neg (by with_unfolding_all decide), if_pos (by with_unfolding_all decide)]
    with_unfolding_all decide
  · intro p now hsl htp hexp
    have hexp' : (1000 : ℤ) < now := hexp
    have hb : (1.1000 : ℚ) < 1.1100 := by norm_num
    simp only [checkExitConditions, c6Signal]
    rw [if_neg (by with_unfolding_all decide),
      if_neg (fun hc => absurd hc.2 (not_le.mpr htp)),
      if_neg (fun hc => hc.1 hb),
      if_neg (fun hc => absurd hc.2 (not_le.mpr hsl)),
      if_neg (fun hc => hc.1 hb),
      if_pos hexp']
    have hcond : ((1.1000 : ℚ) < 1.1100 ∧ 1.1000 < p) ∨ (¬ (1.1000 : ℚ) < 1.1100 ∧ p < 1.1000) ↔
        (1.1000 : ℚ) < p := by
      constructor
      · rintro (⟨_, h⟩ | ⟨habs, _⟩)
        · exact h
        · exact absurd hb habs
      · intro h
        exact Or.inl ⟨hb, h⟩
    simp only [hcond]

/-- C6 witness: the time-expiry clause of the lifecycle theorem at the
concrete price 1.1050 and time 1001 (past the expiry 1000). -/
theorem c6_signal_lifecycle_witness :
    checkExitConditions c6Signal 1.1050 1001 =
      some { reason := .time_expired, exit_price := 1.1050,
             pips_gained := pyRound
               (if (1.1000 : ℚ) < 1.1050 then |(1.1050 : ℚ) - 1.1000| * 10000
                else -(|(1.1050 : ℚ) - 1.1000| * 10000)) 1,
             signal_id := "sig_c6" } :=
  c6_signal_lifecycle.2.2 1.1050 1001 (by norm_num) (by norm_num)
    (by with_unfolding_all decide)

/-- C7: the deduplication check rejects a candidate iff some active signal
of the candidate's symbol has the same timeframe, an entry within 0.001
(strictly) of the candidate's entry and status `active`; in particular, with
an active H1 signal at entry 1.0850, a 1.0851 H1 candidate is rejected and a
1.0900 H1 candidate is accepted. -/
theorem c7_deduplication :
    (∀ (st : GenState) (sig : Signal),
      isDuplicateSignal st sig = true ↔
        ∃ s ∈ getActiveSignals st sig.symbol,
          s.timeframe = sig.timeframe ∧ |s.entry - sig.entry| < 0.001 ∧
          s.status = .active) ∧
    isDuplicateSignal c7State c7CandidateNear = true ∧
    isDuplicateSignal c7State c7CandidateFar = false := by
  refine ⟨?_, by with_unfolding_all decide, by with_unfolding_all decide⟩
  intro st sig
  simp only [isDuplicateSignal, List.any_eq_true, decide_eq_true_eq]

/-- C8: the Silver Bullet setup evaluation accepts an FVG only when its type
matches the bias exactly (bullish with bullish, bearish with bearish);
under neutral bias, and for every type/bias mismatch, no setup is
produced. -/
theorem c8_bias_alignment (fvg : FVGRecord) (liq : LiquidityLevels) (bias : BiasResult) :
    (checkBiasAlignment fvg bias = true ↔
      (fvg.type = .bullish ∧ bias.bias = .bullish) ∨
      (fvg.type = .bearish ∧ bias.bias = .bearish)) ∧
    (∀ s, evaluateSilverBulletSetup fvg liq bias = some s →
      (fvg.type = .bullish ∧ bias.bias = .bullish) ∨
      (fvg.type = .bearish ∧ bias.bias = .bearish)) ∧
    (bias.bias = .neutral → evaluateSilverBulletSetup fvg liq bias = none) ∧
    (checkBiasAlignment fvg bias = false → evaluateSilverBulletSetup fvg liq bias = none) := by
  have hiff : checkBiasAlignment fvg bias = true ↔
      (fvg.type = .bullish ∧ bias.bias = .bullish) ∨
      (fvg.type = .bearish ∧ bias.bias = .bearish) := by
    cases hft : fvg.type <;> cases hbb : bias.bias <;>
      simp [checkBiasAlignment, hft, hbb]
  have hnone : checkBiasAlignment fvg bias = false →
      evaluateSilverBulletSetup fvg liq bias = none := by
    intro hal
    simp only [evaluateSilverBulletSetup]
    rw [if_pos hal]
  refine ⟨hiff, ?_, ?_, hnone⟩
  · intro s hs
    by_cases hal : checkBiasAlignment fvg bias = false
    · rw [hnone hal] at hs
      exact absurd hs (by simp)
    · have : checkBiasAlignment fvg bias = true := by
        revert hal
        cases checkBiasAlignment fvg bias <;> simp
      exact hiff.mp this
  · intro hneu
    apply hnone
    cases hft : fvg.type <;> simp [checkBiasAlignment, hft, hneu]

/-- C8 witness: a bullish FVG under neutral bias produces no setup. -/
theorem c8_bias_alignment_witness :
    evaluateSilverBulletSetup dummyFvg c1Liquidity c8NeutralBias = none :=
  (c8_bias_alignment dummyFvg c1Liquidity c8NeutralBias).2.2.1 rfl

theorem closeInBucket_none (sid : String) (ex : ExitRecord) :
    ∀ l : List Signal, (∀ s ∈ l, s.signal_id ≠ sid) → closeInBucket sid ex l = none
  | [], _ => rfl
  | s :: rest, h => by
      rw [closeInBucket, if_neg (h s (by simp)),
        closeInBucket_none sid ex rest (fun x hx => h x (by simp [hx]))]
      rfl

theorem closeInBuckets_none (sid : String) (ex : ExitRecord) :
    ∀ buckets : List (String × List Signal),
      (∀ pair ∈ buckets, ∀ s ∈ pair.2, s.signal_id ≠ sid) →
      closeInBuckets sid ex buckets = none
  | [], _ => rfl
  | (sym, sigs) :: rest, h => by
      rw [closeInBuckets,
        closeInBucket_none sid ex sigs (fun s hs => h (sym, sigs) (by simp) s hs),
        closeInBuckets_none sid ex rest (fun pair hp s hs => h pair (by simp [hp]) s hs)]
      rfl

/-- C10: closing a signal id that belongs to no currently active signal is a
no-op returning `false` and leaving the whole generator state (active index,
closed log, session stats) unchanged; and a signal whose status is not
`active` is never re-evaluated — `check_exit_conditions` returns no exit for
it. -/
theorem c10_close_idempotent :
    (∀ (st : GenState) (sid : String) (ex : ExitRecord),
      (∀ s ∈ allActiveSignals st, s.signal_id ≠ sid) →
      closeSignal st sid ex = (false, st)) ∧
    (∀ (s : Signal) (p : ℚ) (now : ℤ), s.status ≠ .active →
      checkExitConditions s p now = none) := by
  constructor
  · intro st sid ex hno
    unfold closeSignal
    rw [closeInBuckets_none sid ex st.activeSignals ?_]
    intro pair hp s hs
    apply hno
    unfold allActiveSignals
    exact List.mem_flatten.mpr ⟨pair.2, List.mem_map.mpr ⟨pair, hp, rfl⟩, hs⟩
  · intro s p now h
    unfold checkExitConditions
    rw [if_pos h]

/-- C10 witness: closing an unknown id on the concrete one-signal state is a
`false` no-op, and the closed copy of that signal yields no exit. -/
theorem c10_close_idempotent_witness :
    closeSignal c7State "sig_unknown" c10Exit = (false, c7State) ∧
    checkExitConditions c10ClosedSignal 1.2 0 = none :=
  ⟨c10_close_idempotent.1 c7State "sig_unknown" c10Exit (by with_unfolding_all decide),
   c10_close_idempotent.2 c10ClosedSignal 1.2 0 (by with_unfolding_all decide)⟩

theorem getD_map_neg : ∀ (l : List ℚ) (i : ℕ),
    (l.map (fun x => -x)).getD i 0 = -(l.getD i 0)
  | [], i => by simp
  | a :: t, 0 => by simp
  | a :: t, i + 1 => by simpa using getD_map_neg t i

theorem listMean_map_neg (l : List ℚ) : listMean (l.map (fun x => -x)) = -(listMean l) := by
  have hsum : (l.map (fun x => -x)).sum = -l.sum := by
    induction l with
    | nil => simp
    | cons a t ih => simp [ih]; ring
  unfold listMean
  rw [List.length_map, hsum]
  split
  · simp
  · rw [neg_div]

theorem calculateLevelStrength_neg (p : ℚ) (l : List ℚ) :
    calculateLevelStrength (-p) (l.map (fun x => -x)) = calculateLevelStrength p l := by
  simp only [calculateLevelStrength]
  rw [listMean_map_neg]
  rw [show (-p) - -(listMean l) = -(p - listMean l) by ring, abs_neg]

theorem swingHighAt_map_neg (l : List ℚ) (i : ℕ) :
    swingHighAt (l.map (fun x => -x)) i =
      (swingLowAt l i).map (fun s => ⟨-s.price, s.index, s.strength⟩) := by
  unfold swingHighAt swingLowAt
  rw [List.length_map]
  simp only [getD_map_neg, neg_lt_neg_iff]
  split
  next h =>
    simp only [Option.map_some']
    rw [show [-(l.getD (i - 2) 0), -(l.getD (i - 1) 0), -(l.getD (i + 1) 0), -(l.getD (i + 2) 0)] =
        ([l.getD (i - 2) 0, l.getD (i - 1) 0, l.getD (i + 1) 0, l.getD (i + 2) 0]).map
          (fun x => -x) by simp,
      calculateLevelStrength_neg]
  next h =>
    rfl

theorem swingLowAt_map_neg (l : List ℚ) (i : ℕ) :
    swingLowAt (l.map (fun x => -x)) i =
      (swingHighAt l i).map (fun s => ⟨-s.price, s.index, s.strength⟩) := by
  unfold swingHighAt swingLowAt
  rw [List.length_map]
  simp only [getD_map_neg, neg_lt_neg_iff]
  split
  next h =>
    simp only [Option.map_some']
    rw [show [-(l.getD (i - 2) 0), -(l.getD (i - 1) 0), -(l.getD (i + 1) 0), -(l.getD (i + 2) 0)] =
        ([l.getD (i - 2) 0, l.getD (i - 1) 0, l.getD (i + 1) 0, l.getD (i + 2) 0]).map
          (fun x => -x) by simp,
      calculateLevelStrength_neg]
  next h =>
    rfl

/-- C9: negating and swapping the high/low series swaps the swing detectors'
outputs index-for-index with equal strengths: the swing highs of the
transformed series (`highs' = map neg lows`) are exactly the swing lows of
the original series, and vice versa. -/
theorem c9_swing_symmetry (highs lows : List ℚ) :
    (findSwingHighs (lows.map (fun x => -x))).map (fun s => (s.index, s.strength)) =
      (findSwingLows lows).map (fun s => (s.index, s.strength)) ∧
    (findSwingLows (highs.map (fun x => -x))).map (fun s => (s.index, s.strength)) =
      (findSwingHighs highs).map (fun s => (s.index, s.strength)) := by
  constructor
  · unfold findSwingHighs findSwingLows
    rw [List.length_map, List.map_filterMap, List.map_filterMap]
    apply List.filterMap_congr
    intro i _
    rw [swingHighAt_map_neg, Option.map_map]
    rfl
  · unfold findSwingHighs findSwingLows
    rw [List.length_map, List.map_filterMap, List.map_filterMap]
    apply List.filterMap_congr
    intro i _
    rw [swingLowAt_map_neg, Option.map_map]
    rfl

end FvgLite
